import Mathlib

/-!
Shallow embedding of the comp-selection and valuation engine of the
discord-comping-bot repository (src/utils/valuation.py, src/utils/comps.py,
src/main.py), together with theorems settling the claims about its
specification.

Modelling conventions:
* Python numeric JSON fields are embedded as `Option ℕ` (square footage,
  sale prices: integer currency units), `Option ℤ` (year built) or
  `Option ℚ` (coordinates, bed/bath counts, which may be fractional).
* Python truthiness on such fields (`if x:`) is `tv?`: `None` and `0`
  (resp. the empty string) are falsy.
* Python `a or b` on such fields is `or?`: the first truthy operand,
  otherwise `b`.
* The `haversine` library call (external dependency) is a parameter
  `hdist : ℚ × ℚ → ℚ × ℚ → ℚ` of the selection engine; every theorem
  quantifying over `hdist` holds in particular for (any rational-valued
  realization of) the real haversine distance.
* Network calls return provider payloads; those payloads are fields of an
  `Env` record and the code's guards around them are translated literally.
-/

namespace CompingBot

/-- Python truthiness of an optional rational (`None` and `0` are falsy). -/
def tvQ : Option ℚ → Bool
  | some q => decide (q ≠ 0)
  | none => false

/-- Python truthiness of an optional natural number. -/
def tvN : Option ℕ → Bool
  | some n => decide (n ≠ 0)
  | none => false

/-- Python truthiness of an optional integer. -/
def tvZ : Option ℤ → Bool
  | some z => decide (z ≠ 0)
  | none => false

/-- Python truthiness of an optional string (`None` and `""` are falsy). -/
def tvS : Option String → Bool
  | some s => decide (s ≠ "")
  | none => false

/-- Python `a or b` for optional rationals: first truthy operand, else `b`. -/
def orQ (a b : Option ℚ) : Option ℚ := if tvQ a then a else b

/-- Python `a or b` for optional naturals. -/
def orN (a b : Option ℕ) : Option ℕ := if tvN a then a else b

/-- Python `a or b` for optional integers. -/
def orZ (a b : Option ℤ) : Option ℤ := if tvZ a then a else b

/-- Python `a or b` for optional strings. -/
def orS (a b : Option String) : Option String := if tvS a then a else b

/-- `leadsWith needle hay`: `needle` is an initial segment of `hay`. -/
def leadsWith : List Char → List Char → Bool
  | [], _ => true
  | _ :: _, [] => false
  | a :: as, b :: bs => a == b && leadsWith as bs

/-- `hasSubList needle hay`: `needle` occurs contiguously inside `hay`. -/
def hasSubList (needle : List Char) : List Char → Bool
  | [] => needle.isEmpty
  | b :: bs => leadsWith needle (b :: bs) || hasSubList needle bs

/-- Python `needle in hay` on strings (substring test). -/
def strHasSub (needle hay : String) : Bool := hasSubList needle.toList hay.toList

/-- Python `abs` on a rational. -/
def pyAbs (q : ℚ) : ℚ := if q < 0 then -q else q

/-- Python `abs` on an integer. -/
def pyAbsZ (z : ℤ) : ℤ := if z < 0 then -z else z

/-- Python `int(q)` on a float/rational: truncation toward zero. -/
def pyInt (q : ℚ) : ℤ := if q < 0 then ⌈q⌉ else ⌊q⌋

/-- Python `round(q, 2)`: rounding to two decimal places. Python uses
round-half-to-even on the underlying binary float; exact decimal ties are
modelled as round-half-up, which agrees everywhere the claims evaluate it. -/
def round2 (q : ℚ) : ℚ := (round (q * 100) : ℤ) / 100

/-! ## Data model: candidate records (heterogeneous Zillow/ATTOM shapes)

One record type holds every field `valuation.py` reads from a raw candidate
dict, with `Option` leaves standing for possibly-absent JSON keys; nested
`dicts` accessed via `.get("…", {})` become nested records whose leaves are
all optional, which is observationally the same. -/

structure AddressR where
  streetAddress : Option String := none
  line1 : Option String := none
  line2 : Option String := none
deriving DecidableEq, Repr

structure RoomsR where
  beds : Option ℚ := none
  bathTotal : Option ℚ := none
deriving DecidableEq, Repr

structure SizeR where
  livingSize : Option ℕ := none
deriving DecidableEq, Repr

structure BuildingR where
  rooms : RoomsR := {}
  size : SizeR := {}
deriving DecidableEq, Repr

structure SummaryR where
  propclass : Option String := none
  yearBuilt : Option ℤ := none
deriving DecidableEq, Repr

structure SaleR where
  amount : Option ℕ := none
  saleDate : Option String := none
deriving DecidableEq, Repr

structure LocationR where
  latitude : Option ℚ := none
  longitude : Option ℚ := none
deriving DecidableEq, Repr

structure LotR where
  lotSize1 : Option ℚ := none
deriving DecidableEq, Repr

/-- A raw candidate record (one element of the pool fed to `get_clean_comps`). -/
structure CompR where
  zpid : Option String := none
  id : Option String := none
  latitude : Option ℚ := none
  longitude : Option ℚ := none
  location : LocationR := {}
  bedrooms : Option ℚ := none
  bathrooms : Option ℚ := none
  yearBuilt : Option ℤ := none
  livingArea : Option ℕ := none
  price : Option ℕ := none
  lastSoldPrice : Option ℕ := none
  sale : SaleR := {}
  summary : SummaryR := {}
  building : BuildingR := {}
  address : AddressR := {}
  lot : LotR := {}
deriving DecidableEq, Repr

/-- The subject-property dict built by `get_subject_data` / `get_comp_summary`. -/
structure Subject where
  latitude : Option ℚ := none
  longitude : Option ℚ := none
  address_components : List (String × String) := []
  sqft : Option ℕ := none
  beds : Option ℚ := none
  baths : Option ℚ := none
  year : Option ℤ := none
  lot : Option ℚ := none
deriving DecidableEq, Repr

/-! ## Field access chains of `get_clean_comps` (valuation.py lines 160-231) -/

/-- `comp.get("latitude") or comp.get("location", {}).get("latitude")`. -/
def comp_lat (c : CompR) : Option ℚ := orQ c.latitude c.location.latitude

/-- `comp.get("longitude") or comp.get("location", {}).get("longitude")`. -/
def comp_lon (c : CompR) : Option ℚ := orQ c.longitude c.location.longitude

/-- `comp.get("bedrooms") or comp.get("building", {}).get("rooms", {}).get("beds")`. -/
def comp_beds (c : CompR) : Option ℚ := orQ c.bedrooms c.building.rooms.beds

/-- `comp.get("bathrooms") or comp.get("building", {}).get("rooms", {}).get("bathTotal")`. -/
def comp_baths (c : CompR) : Option ℚ := orQ c.bathrooms c.building.rooms.bathTotal

/-- `comp.get("yearBuilt") or comp.get("summary",{}).get("yearBuilt")`. -/
def comp_year (c : CompR) : Option ℤ := orZ c.yearBuilt c.summary.yearBuilt

/-- `comp.get("livingArea") or comp.get("building",{}).get("size",{}).get("livingSize")`. -/
def comp_sqft (c : CompR) : Option ℕ := orN c.livingArea c.building.size.livingSize

/-- `comp.get("price") or comp.get("lastSoldPrice") or sale_info.get("amount") or 0`. -/
def comp_sold (c : CompR) : ℕ := (orN c.price (orN c.lastSoldPrice c.sale.amount)).getD 0

/-! ## The comp selection engine: `get_clean_comps` (valuation.py lines 144-234) -/

/-- A selected comp: `{**comp, "grade": grade, "distance": distance}`. -/
structure Chosen where
  comp : CompR
  grade : String
  distance : ℚ
deriving DecidableEq, Repr

/-- The `prop_class and "Single Family" not in prop_class` rejection. -/
def propClassReject (c : CompR) : Bool :=
  tvS c.summary.propclass && !(strHasSub "Single Family" (c.summary.propclass.getD ""))

/-- The two de-duplication rejections against the already-chosen list:
`any(c.get("zpid") == comp.get("zpid") for c in chosen if c.get("zpid") and comp.get("zpid"))`
and the same for `"id"`. -/
def dupReject (chosen : List Chosen) (c : CompR) : Bool :=
  (chosen.any fun ch => tvS ch.comp.zpid && tvS c.zpid && (ch.comp.zpid == c.zpid)) ||
  (chosen.any fun ch => tvS ch.comp.id && tvS c.id && (ch.comp.id == c.id))

/-- `if subject_beds and comp_beds and abs(comp_beds - subject_beds) > 1: continue`. -/
def bedsReject (s : Subject) (c : CompR) : Bool :=
  tvQ s.beds && tvQ (comp_beds c) &&
    decide (pyAbs ((comp_beds c).getD 0 - s.beds.getD 0) > 1)

/-- `if subject_baths and comp_baths and abs(comp_baths - subject_baths) > 1: continue`. -/
def bathsReject (s : Subject) (c : CompR) : Bool :=
  tvQ s.baths && tvQ (comp_baths c) &&
    decide (pyAbs ((comp_baths c).getD 0 - s.baths.getD 0) > 1)

/-- `if subject_year and comp_year and abs(comp_year - subject_year) > 25: continue`. -/
def yearReject (s : Subject) (c : CompR) : Bool :=
  tvZ s.year && tvZ (comp_year c) &&
    decide (pyAbsZ ((comp_year c).getD 0 - s.year.getD 0) > 25)

/-- `if actual_sqft and comp_sqft and abs(comp_sqft - actual_sqft) > 500: continue`. -/
def sqftReject (s : Subject) (c : CompR) : Bool :=
  tvN s.sqft && tvN (comp_sqft c) &&
    decide (pyAbsZ (((comp_sqft c).getD 0 : ℤ) - (s.sqft.getD 0 : ℤ)) > 500)

/-- One candidate considered inside a tier: the body of the inner `for comp in
comps` loop of `get_clean_comps` (lines 160-202), applied to the accumulated
`chosen` list.  `hdist` is the external `haversine(…, unit=Unit.MILES)` call. -/
def tierStep (hdist : ℚ × ℚ → ℚ × ℚ → ℚ) (s : Subject) (s_lat s_lon : ℚ)
    (radius : ℚ) (grade : String) (chosen : List Chosen) (c : CompR) : List Chosen :=
  if propClassReject c then chosen
  else if dupReject chosen c then chosen
  else
    match comp_lat c, comp_lon c with
    | some la, some lo =>
      let d := hdist (s_lat, s_lon) (la, lo)
      if d > radius then chosen
      else if bedsReject s c then chosen
      else if bathsReject s c then chosen
      else if yearReject s c then chosen
      else if sqftReject s c then chosen
      else chosen ++ [⟨c, grade, d⟩]
    | _, _ => chosen

/-- The inner `for comp in comps` loop of one tier.  The code breaks out right
after an append makes `len(chosen) >= 3`; checking the same bound before each
candidate yields the identical final list, since the loop body has no other
effect. -/
def tierScan (hdist : ℚ × ℚ → ℚ × ℚ → ℚ) (s : Subject) (s_lat s_lon : ℚ)
    (radius : ℚ) (grade : String) : List CompR → List Chosen → List Chosen
  | [], chosen => chosen
  | c :: rest, chosen =>
    if chosen.length ≥ 3 then chosen
    else tierScan hdist s s_lat s_lon radius grade rest
      (tierStep hdist s s_lat s_lon radius grade chosen c)

/-- `tiers = [(1, "A+"), (2, "B+"), (3, "C+"), (5, "D+"), (10, "F")]`. -/
def tiers : List (ℚ × String) := [(1, "A+"), (2, "B+"), (3, "C+"), (5, "D+"), (10, "F")]

/-- The outer `for radius, grade in tiers` loop (with its `break` once three
comps are chosen). -/
def tierLoop (hdist : ℚ × ℚ → ℚ × ℚ → ℚ) (s : Subject) (s_lat s_lon : ℚ) :
    List (ℚ × String) → List CompR → List Chosen → List Chosen
  | [], _, chosen => chosen
  | (radius, grade) :: rest, comps, chosen =>
    if chosen.length ≥ 3 then chosen
    else tierLoop hdist s s_lat s_lon rest comps
      (tierScan hdist s s_lat s_lon radius grade comps chosen)

/-- The chosen list produced by the tier loops.  `float(subject.get("latitude"))`
raises on `None` and the function then returns `([], 0.0)`; that early return is
represented by the empty chosen list (which formats and averages to `([], 0)`). -/
def chosenComps (hdist : ℚ × ℚ → ℚ × ℚ → ℚ) (s : Subject) (comps : List CompR) :
    List Chosen :=
  match s.latitude, s.longitude with
  | some la, some lo => tierLoop hdist s la lo tiers comps []
  | _, _ => []

/-- Stable insertion: place `x` before the first element not strictly below it. -/
def insSorted (le : α → α → Bool) (x : α) : List α → List α
  | [] => [x]
  | y :: ys => if le x y then x :: y :: ys else y :: insSorted le x ys

/-- Python `sorted`, a stable sort; modelled by stable insertion sort, which
computes the same list for any total transitive comparison. -/
def sortStable (le : α → α → Bool) (l : List α) : List α :=
  l.foldr (insSorted le) []

/-- The comparison `key=lambda x: x["distance"]` used on the chosen list. -/
def chLE (a b : Chosen) : Bool := decide (a.distance ≤ b.distance)

/-- `sorted(chosen, key=lambda x: x["distance"])` (line 209). -/
def sortedChosen (hdist : ℚ × ℚ → ℚ × ℚ → ℚ) (s : Subject) (comps : List CompR) :
    List Chosen :=
  sortStable chLE (chosenComps hdist s comps)

/-- `psf = sold / sqft if sqft and sold else None` (line 217). -/
def comp_psf (c : CompR) : Option ℚ :=
  if tvN (comp_sqft c) && (comp_sold c != 0) then
    some ((comp_sold c : ℚ) / ((comp_sqft c).getD 0 : ℚ))
  else none

/-- The value appended to `psfs` when `if psf:` holds (psf truthy). -/
def psfTruthy (c : CompR) : Option ℚ :=
  match comp_psf c with
  | some p => if p = 0 then none else some p
  | none => none

/-- The `psfs` list accumulated over the sorted chosen comps. -/
def psfList (l : List Chosen) : List ℚ := l.filterMap fun ch => psfTruthy ch.comp

/-- `avg_psf = sum(psfs) / len(psfs) if psfs else 0` (line 233). -/
def avgPsf (l : List Chosen) : ℚ :=
  let ps := psfList l
  if ps.isEmpty then 0 else ps.sum / (ps.length : ℚ)

/-- A value of the formatted output dict. -/
inductive PVal where
  | s (v : String)
  | i (v : ℤ)
  | q (v : ℚ)
  | none
deriving DecidableEq, Repr

def pvOptN : Option ℕ → PVal
  | some n => .i n
  | Option.none => .none

def pvOptZ : Option ℤ → PVal
  | some z => .i z
  | Option.none => .none

def pvOptQ : Option ℚ → PVal
  | some q => .q q
  | Option.none => .none

/-- Python string interpolation of a possibly-`None` value. -/
def pyStrOpt : Option String → String
  | some s => s
  | Option.none => "None"

/-- `comp.get("address", {}).get("streetAddress") or f"{line1} {line2}"`. -/
def comp_addr (c : CompR) : String :=
  let fallback := pyStrOpt c.address.line1 ++ " " ++ pyStrOpt c.address.line2
  match c.address.streetAddress with
  | some s => if s = "" then fallback else s
  | Option.none => fallback

/-- `f"https://www.zillow.com/homedetails/{comp_zpid}_zpid/" if comp_zpid else "#"`. -/
def zillowUrl (c : CompR) : String :=
  if tvS c.zpid then
    "https://www.zillow.com/homedetails/" ++ c.zpid.getD "" ++ "_zpid/"
  else "#"

/-- The formatted dict appended for each sorted chosen comp (lines 221-231),
modelled as the list of its key/value pairs in insertion order. -/
def fmtComp (ch : Chosen) : List (String × PVal) :=
  let c := ch.comp
  [("address", .s (comp_addr c)),
   ("sold_price", .i (comp_sold c)),
   ("sqft", pvOptN (comp_sqft c)),
   ("zillow_url", .s (zillowUrl c)),
   ("grade", .s ch.grade),
   ("yearBuilt", pvOptZ (comp_year c)),
   ("beds", pvOptQ (comp_beds c)),
   ("baths", pvOptQ (comp_baths c)),
   ("psf", match psfTruthy c with | some p => .q (round2 p) | Option.none => .none)]

/-- `get_clean_comps(subject, comps)` (valuation.py lines 144-234). -/
def get_clean_comps (hdist : ℚ × ℚ → ℚ × ℚ → ℚ) (s : Subject) (comps : List CompR) :
    List (List (String × PVal)) × ℚ :=
  ((sortedChosen hdist s comps).map fmtComp, avgPsf (sortedChosen hdist s comps))

/-! ## The deal calculator: `get_comps_and_arv` (utils/comps.py) -/

/-- The return dict of `get_comps_and_arv`. -/
structure Deals where
  arv : ℚ
  rehab_cost : ℤ
  fee : ℤ
  as_is_value_rbp : ℚ
  cash_offer : ℤ
  rbp_offer : ℤ
  takedown_offer : ℤ
deriving DecidableEq, Repr

/-- The inner `arv_multiplier` step function (comps.py lines 14-20). -/
def arv_multiplier (arv : ℚ) : ℚ :=
  if arv < 100000 then 55 / 100
  else if arv < 150000 then 65 / 100
  else if arv < 250000 then 70 / 100
  else if arv < 350000 then 75 / 100
  else if arv < 500000 then 80 / 100
  else 85 / 100

/-- `get_comps_and_arv(arv_estimate, notes, rehab_level)` (comps.py lines 3-40).
The `notes` parameter is unused by the body; the caller in main.py passes the
average price per square foot in that position. -/
def get_comps_and_arv (arv_estimate : ℚ) (notes : ℚ) (rehab_level : ℤ) : Deals :=
  let fee : ℤ := 40000
  let rehab_cost : ℚ := 10000 * rehab_level
  let cash_moa : ℚ := arv_estimate * arv_multiplier arv_estimate - rehab_cost - (fee : ℚ)
  let as_is_est : ℚ := arv_estimate
  let rbp_moa : ℚ := as_is_est * (90 / 100)
  let td_moa : ℚ := as_is_est * (95 / 100) - 75000
  { arv := arv_estimate
    rehab_cost := pyInt rehab_cost
    fee := fee
    as_is_value_rbp := rbp_moa
    cash_offer := pyInt cash_moa
    rbp_offer := pyInt (rbp_moa - (fee : ℚ))
    takedown_offer := pyInt td_moa }

/-- The deal-calculator call site `get_comps_and_arv(subject_sqft, avg_psf, level)`
in main.py line 67, fed from the `get_comp_summary` output tuple. -/
def mainDeals (subject_sqft : ℕ) (avg_psf : ℚ) (level : ℤ) : Deals :=
  get_comps_and_arv (subject_sqft : ℚ) avg_psf level

/-! ## Sale-date sort keys: `get_sale_date` (valuation.py lines 251-266) -/

/-- A `datetime` value as produced by `strptime`. -/
structure PyDateTime where
  year : ℕ
  month : ℕ
  day : ℕ
  hour : ℕ
  minute : ℕ
  second : ℕ
  micro : ℕ
deriving DecidableEq, Repr

/-- `datetime.min`. -/
def datetimeMin : PyDateTime := ⟨1, 1, 1, 0, 0, 0, 0⟩

/-- Lexicographic comparison of datetimes. -/
def dtLE (a b : PyDateTime) : Bool :=
  if a.year ≠ b.year then a.year < b.year
  else if a.month ≠ b.month then a.month < b.month
  else if a.day ≠ b.day then a.day < b.day
  else if a.hour ≠ b.hour then a.hour < b.hour
  else if a.minute ≠ b.minute then a.minute < b.minute
  else if a.second ≠ b.second then a.second < b.second
  else a.micro ≤ b.micro

def allDigits (s : String) : Bool := s.toList.all fun c => '0' ≤ c && c ≤ '9'

def digitsVal (s : String) : ℕ :=
  s.toList.foldl (fun a c => 10 * a + (c.toNat - 48)) 0

/-- A `%Y`/`%m`/… numeric field of `strptime`: 1 to `w` digits. -/
def numField (w : ℕ) (s : String) : Option ℕ :=
  if 1 ≤ s.length ∧ s.length ≤ w ∧ allDigits s then some (digitsVal s) else none

def isLeap (y : ℕ) : Bool := y % 4 = 0 && (y % 100 ≠ 0 || y % 400 = 0)

def daysInMonth (y m : ℕ) : ℕ :=
  if m = 2 then (if isLeap y then 29 else 28)
  else if m = 4 ∨ m = 6 ∨ m = 9 ∨ m = 11 then 30
  else 31

/-- Validated date components (datetime rejects out-of-range values). -/
def mkDate (y m d : ℕ) : Option (ℕ × ℕ × ℕ) :=
  if 1 ≤ y ∧ y ≤ 9999 ∧ 1 ≤ m ∧ m ≤ 12 ∧ 1 ≤ d ∧ d ≤ daysInMonth y m then
    some (y, m, d)
  else none

/-- `datetime.strptime(s, "%Y-%m-%d")`. -/
def parseDateOnly (s : String) : Option PyDateTime :=
  match s.splitOn "-" with
  | [ys, ms, ds] => do
    let y ← numField 4 ys
    let m ← numField 2 ms
    let d ← numField 2 ds
    let _ ← mkDate y m d
    pure ⟨y, m, d, 0, 0, 0, 0⟩
  | _ => none

/-- The `%f` microsecond field: 1-6 digits, right-padded to six. -/
def microField (s : String) : Option ℕ :=
  if 1 ≤ s.length ∧ s.length ≤ 6 ∧ allDigits s then
    some (digitsVal s * 10 ^ (6 - s.length))
  else none

/-- `datetime.strptime(s, "%Y-%m-%dT%H:%M:%S.%f")`. -/
def parseDateTimeF (s : String) : Option PyDateTime :=
  match s.splitOn "T" with
  | [ds, ts] =>
    (match ds.splitOn "-", ts.splitOn "." with
     | [ys, ms, dds], [hms, fs] =>
       (match hms.splitOn ":" with
        | [hs, mis, ss] => do
          let y ← numField 4 ys
          let m ← numField 2 ms
          let d ← numField 2 dds
          let _ ← mkDate y m d
          let h ← numField 2 hs
          let mi ← numField 2 mis
          let sec ← numField 2 ss
          let us ← microField fs
          if h ≤ 23 ∧ mi ≤ 59 ∧ sec ≤ 59 then
            pure ⟨y, m, d, h, mi, sec, us⟩
          else none
        | _ => none)
     | _, _ => none)
  | _ => none

/-- `get_sale_date(comp)` (valuation.py lines 251-266): the sort key used on
the raw candidate pool; unparsable or missing dates map to `datetime.min`. -/
def get_sale_date (c : CompR) : PyDateTime :=
  match c.sale.saleDate with
  | Option.none => datetimeMin
  | some s0 =>
    if s0 = "" then datetimeMin
    else
      let s := if s0.contains '+' then (s0.splitOn "+").headD "" else s0
      let parsed := if s.contains '.' then parseDateTimeF s else parseDateOnly s
      parsed.getD datetimeMin

/-- `sorted(raw_comps, key=get_sale_date, reverse=True)` (line 268): stable
descending sort on the sale-date key. -/
def sortBySaleDateDesc (l : List CompR) : List CompR :=
  sortStable (fun a b => dtLE (get_sale_date b) (get_sale_date a)) l

/-! ## The pipeline: `get_subject_data` and `get_comp_summary`

Network calls are embedded through an environment record holding the payload
each provider endpoint would return; the code's guards and field plumbing
around those payloads are translated literally. -/

/-- The result of `get_coordinates` (address_tools.py): `None` on geocoding
failure, otherwise a dict with `lat`, `lng` and structured components. -/
structure GeoInfo where
  lat : Option ℚ := none
  lng : Option ℚ := none
  components : List (String × String) := []
deriving DecidableEq, Repr

/-- The `homeInfo` detail record extracted by `get_subject_data` line 47
(`details.get("hdpData", {}).get("homeInfo") or details.get("homeInfo") or
details`); `none` when the details fetch failed or produced a falsy dict. -/
structure HomeInfo where
  livingArea : Option ℕ := none
  homeSize : Option ℕ := none
  bedrooms : Option ℚ := none
  bathrooms : Option ℚ := none
  yearBuilt : Option ℤ := none
  lotSize : Option ℚ := none
  lotSizeArea : Option ℚ := none
deriving DecidableEq, Repr

/-- One valuation request's external world: what each provider call returns. -/
structure Env where
  geo : Option GeoInfo := none
  zpid : Option String := none
  homeInfo : Option HomeInfo := none
  attomSubjectResp : List CompR := []
  attomCompsResp : List CompR := []
  zillowCompsResp : List CompR := []
  hdist : ℚ × ℚ → ℚ × ℚ → ℚ := fun _ _ => 0

/-- `subj_ids` dict. -/
structure SubjIds where
  zpid : Option String := none
deriving DecidableEq, Repr

/-- `fetch_attom_comps(subject, …)` (valuation.py lines 115-141): returns `[]`
unless the subject has truthy latitude and longitude, otherwise the provider
payload (`resp`). -/
def fetch_attom_comps (resp : List CompR) (s : Subject) : List CompR :=
  if tvQ s.latitude && tvQ s.longitude then resp else []

/-- `fetch_zillow_comps(zpid, …)` (valuation.py lines 92-112): pure network
fetch and response-shape selection, embedded as the provider payload. -/
def fetch_zillow_comps (env : Env) : List CompR := env.zillowCompsResp

/-- `get_subject_data(address)` (valuation.py lines 22-76). -/
def get_subject_data (env : Env) : SubjIds × Subject :=
  match env.geo with
  | Option.none => ({}, {})
  | some g =>
    let s0 : Subject := { latitude := g.lat, longitude := g.lng,
                          address_components := g.components }
    let idsAndS1 : SubjIds × Subject :=
      if tvS env.zpid then
        (⟨env.zpid⟩,
         match env.homeInfo with
         | some info =>
           { s0 with sqft := orN info.livingArea info.homeSize
                     beds := info.bedrooms
                     baths := info.bathrooms
                     year := info.yearBuilt
                     lot := orQ info.lotSize info.lotSizeArea }
         | Option.none => s0)
      else ({}, s0)
    let ids := idsAndS1.1
    let s1 := idsAndS1.2
    let s2 : Subject :=
      if !(tvQ s1.beds) || !(tvN s1.sqft) then
        match fetch_attom_comps env.attomSubjectResp s1 with
        | [] => s1
        | ad :: _ =>
          let sA := if tvN s1.sqft then s1 else
            { s1 with sqft := ad.building.size.livingSize }
          let sB := if tvQ sA.beds then sA else
            { sA with beds := ad.building.rooms.beds }
          let sC := if tvQ sB.baths then sB else
            { sB with baths := ad.building.rooms.bathTotal }
          let sD := if tvZ sC.year then sC else
            { sC with year := ad.summary.yearBuilt }
          if tvQ sD.lot then sD else { sD with lot := ad.lot.lotSize1 }
      else s1
    (ids, s2)

/-- `get_comp_summary(address, manual_sqft)` (valuation.py lines 237-271). -/
def get_comp_summary (env : Env) (manual_sqft : Option ℕ) :
    List (List (String × PVal)) × ℚ × ℕ :=
  let idsAndSubj := get_subject_data env
  let subject :=
    if tvN manual_sqft then { idsAndSubj.2 with sqft := manual_sqft }
    else idsAndSubj.2
  let raw : List CompR :=
    (if tvS idsAndSubj.1.zpid then fetch_zillow_comps env else []) ++
      fetch_attom_comps env.attomCompsResp subject
  let cleanAndAvg :=
    if raw.isEmpty then (([] : List (List (String × PVal))), (0 : ℚ))
    else get_clean_comps env.hdist subject (sortBySaleDateDesc raw)
  (cleanAndAvg.1, cleanAndAvg.2, if tvN subject.sqft then subject.sqft.getD 0 else 0)

/-! ## Derived notions used by the verification -/

/-- The radius of the tier carrying each grade label. -/
def tierRadius : String → ℚ
  | "A+" => 1
  | "B+" => 2
  | "C+" => 3
  | "D+" => 5
  | "F" => 10
  | _ => 0

/-- Two selected comps do not share a truthy `zpid` and do not share a truthy
`id`: the de-duplication relation `get_clean_comps` enforces. -/
def DistinctId (a b : Chosen) : Prop :=
  ¬(tvS a.comp.zpid ∧ tvS b.comp.zpid ∧ a.comp.zpid = b.comp.zpid) ∧
  ¬(tvS a.comp.id ∧ tvS b.comp.id ∧ a.comp.id = b.comp.id)

/-- Rewrite a candidate's sale date (the only field the recency claim is
about); used to state that selection ignores sale dates. -/
def withSaleDate (f : CompR → Option String) (c : CompR) : CompR :=
  { c with sale := { c.sale with saleDate := f c } }

/-- Lift `withSaleDate` to a selected comp. -/
def mapChDate (f : CompR → Option String) (ch : Chosen) : Chosen :=
  { ch with comp := withSaleDate f ch.comp }

/-- Replace an explicit `0` by an absent value. -/
def zeroToNoneQ (o : Option ℚ) : Option ℚ := if o = some 0 then none else o

def zeroToNoneN (o : Option ℕ) : Option ℕ := if o = some 0 then none else o

def zeroToNoneZ (o : Option ℤ) : Option ℤ := if o = some 0 then none else o

/-- The subject with every zero-valued similarity attribute made absent. -/
def zeroNormSubject (s : Subject) : Subject :=
  { s with beds := zeroToNoneQ s.beds
           baths := zeroToNoneQ s.baths
           year := zeroToNoneZ s.year
           sqft := zeroToNoneN s.sqft }

/-- The candidate with every zero-valued similarity attribute (in either of
its provider shapes) made absent. -/
def zeroNormComp (c : CompR) : CompR :=
  { c with bedrooms := zeroToNoneQ c.bedrooms
           bathrooms := zeroToNoneQ c.bathrooms
           yearBuilt := zeroToNoneZ c.yearBuilt
           livingArea := zeroToNoneN c.livingArea
           building := { rooms := { beds := zeroToNoneQ c.building.rooms.beds
                                    bathTotal := zeroToNoneQ c.building.rooms.bathTotal }
                         size := { livingSize := zeroToNoneN c.building.size.livingSize } }
           summary := { c.summary with yearBuilt := zeroToNoneZ c.summary.yearBuilt } }

/-- The key list of every formatted comp dict. -/
def fmtKeys : List String :=
  ["address", "sold_price", "sqft", "zillow_url", "grade", "yearBuilt", "beds", "baths", "psf"]

/-! ## Concrete inputs used by witnesses and counterexamples

`hd0` is the distance function used on concrete pools whose candidates sit at
the subject's own coordinates: there the haversine distance is `0`, which
`hd0` reproduces. -/

def hd0 : ℚ × ℚ → ℚ × ℚ → ℚ := fun _ _ => 0

/-- A subject with full similarity attributes. -/
def subjW : Subject :=
  { latitude := some 34, longitude := some (-118), sqft := some 1400,
    beds := some 3, baths := some 2, year := some 1990 }

/-- A candidate with no identity fields at all. -/
def anonComp : CompR := { latitude := some 34, longitude := some (-118) }

/-- A candidate matching `subjW` on every similarity filter, whose sale is
fourteen months old (relative to October 2026). -/
def perfComp14 : CompR :=
  { zpid := some "z9", latitude := some 34, longitude := some (-118),
    bedrooms := some 3, bathrooms := some 2, yearBuilt := some 1990,
    livingArea := some 1400, price := some 210000,
    sale := { saleDate := some "2025-08-12" } }

/-- The same candidate with a three-month-old sale date. -/
def perfComp3 : CompR :=
  { zpid := some "z9", latitude := some 34, longitude := some (-118),
    bedrooms := some 3, bathrooms := some 2, yearBuilt := some 1990,
    livingArea := some 1400, price := some 210000,
    sale := { saleDate := some "2026-07-12" } }

/-- Geocoding fails, with candidate data nonetheless available upstream. -/
def envGeoFail : Env :=
  { geo := none, zpid := some "z1",
    zillowCompsResp := [perfComp3], attomCompsResp := [perfComp3], hdist := hd0 }

/-- Geocoding succeeds but every provider returns no candidates. -/
def envEmptyOk : Env := { geo := some { lat := some 34, lng := some (-118) } }

/-- Geocoding succeeds and Zillow reports a fetched square footage of 1500. -/
def envFetched1500 : Env :=
  { geo := some { lat := some 34, lng := some (-118) }, zpid := some "z1",
    homeInfo := some { livingArea := some 1500, bedrooms := some 2 } }

/-- Geocoding succeeds, subject has no attributes, and the ATTOM pool holds
the perfectly matching candidate with the fourteen-month-old sale. -/
def envOld : Env :=
  { geo := some { lat := some 34, lng := some (-118) },
    attomCompsResp := [perfComp14], hdist := hd0 }

/-! ## Infrastructure lemmas -/

theorem insSorted_perm (le : α → α → Bool) (x : α) (l : List α) :
    List.Perm (insSorted le x l) (x :: l) := by
  induction l with
  | nil => exact List.Perm.refl _
  | cons y ys ih =>
    unfold insSorted
    by_cases h : le x y = true
    · rw [if_pos h]
    · rw [if_neg h]
      exact List.Perm.trans (ih.cons y) (List.Perm.swap x y ys)

theorem sortStable_perm (le : α → α → Bool) (l : List α) :
    List.Perm (sortStable le l) l := by
  induction l with
  | nil => exact List.Perm.refl _
  | cons y ys ih =>
    exact List.Perm.trans (insSorted_perm le y _) (ih.cons y)

theorem mem_sortStable {le : α → α → Bool} {l : List α} {a : α} :
    a ∈ sortStable le l ↔ a ∈ l :=
  (sortStable_perm le l).mem_iff

theorem length_sortStable (le : α → α → Bool) (l : List α) :
    (sortStable le l).length = l.length :=
  (sortStable_perm le l).length_eq

theorem pairwise_insSorted_chLE (x : Chosen) (l : List Chosen)
    (h : l.Pairwise fun a b => a.distance ≤ b.distance) :
    (insSorted chLE x l).Pairwise fun a b => a.distance ≤ b.distance := by
  induction l with
  | nil => simp [insSorted]
  | cons y ys ih =>
    unfold insSorted
    rcases List.pairwise_cons.mp h with ⟨hy, hys⟩
    by_cases hle : chLE x y = true
    · have hxy : x.distance ≤ y.distance := by
        simpa [chLE] using hle
      rw [if_pos hle]
      refine List.pairwise_cons.mpr ⟨?_, h⟩
      intro z hz
      rcases List.mem_cons.mp hz with rfl | hz'
      · exact hxy
      · exact le_trans hxy (hy z hz')
    · have hyx : y.distance ≤ x.distance := by
        have hnot : ¬ x.distance ≤ y.distance := by
          simpa [chLE] using hle
        exact le_of_not_le hnot
      rw [if_neg hle]
      refine List.pairwise_cons.mpr ⟨?_, ih hys⟩
      intro z hz
      have hz2 : z = x ∨ z ∈ ys := by
        have := (insSorted_perm chLE x ys).mem_iff.mp hz
        simpa using this
      rcases hz2 with rfl | hz'
      · exact hyx
      · exact hy z hz'

theorem pairwise_sortStable_chLE (l : List Chosen) :
    (sortStable chLE l).Pairwise fun a b => a.distance ≤ b.distance := by
  induction l with
  | nil => simp [sortStable]
  | cons y ys ih => exact pairwise_insSorted_chLE y _ ih

theorem tierStep_eq_or (hd : ℚ × ℚ → ℚ × ℚ → ℚ) (s : Subject) (la lo r : ℚ)
    (g : String) (chosen : List Chosen) (c : CompR) :
    tierStep hd s la lo r g chosen c = chosen ∨
    ∃ d, tierStep hd s la lo r g chosen c = chosen ++ [⟨c, g, d⟩] ∧ d ≤ r ∧
      dupReject chosen c = false := by
  unfold tierStep
  by_cases h1 : propClassReject c = true
  · simp [h1]
  · simp only [h1, if_false, Bool.not_eq_true] at *
    by_cases h2 : dupReject chosen c = true
    · simp [h2]
    · have h2' : dupReject chosen c = false := by
        simpa using h2
      simp only [h2', Bool.false_eq_true, if_false]
      rcases hla : comp_lat c with _ | la2
      · simp
      · rcases hlo : comp_lon c with _ | lo2
        · simp
        · by_cases h3 : hd (la, lo) (la2, lo2) > r
          · simp [h3]
          · simp only [h3, if_false]
            by_cases h4 : bedsReject s c = true
            · simp [h4]
            · simp only [h4, Bool.false_eq_true, if_false]
              by_cases h5 : bathsReject s c = true
              · simp [h5]
              · simp only [h5, Bool.false_eq_true, if_false]
                by_cases h6 : yearReject s c = true
                · simp [h6]
                · simp only [h6, Bool.false_eq_true, if_false]
                  by_cases h7 : sqftReject s c = true
                  · simp [h7]
                  · simp only [h7, Bool.false_eq_true, if_false]
                    refine Or.inr ⟨hd (la, lo) (la2, lo2), ?_, le_of_not_lt h3, trivial⟩
                    simp

theorem tierStep_length_le (hd : ℚ × ℚ → ℚ × ℚ → ℚ) (s : Subject) (la lo r : ℚ)
    (g : String) (chosen : List Chosen) (c : CompR) :
    (tierStep hd s la lo r g chosen c).length ≤ chosen.length + 1 := by
  rcases tierStep_eq_or hd s la lo r g chosen c with h | ⟨d, h, _, _⟩ <;> simp [h]

theorem tierScan_length_le (hd : ℚ × ℚ → ℚ × ℚ → ℚ) (s : Subject) (la lo r : ℚ)
    (g : String) (comps : List CompR) (chosen : List Chosen)
    (h : chosen.length ≤ 3) :
    (tierScan hd s la lo r g comps chosen).length ≤ 3 := by
  induction comps generalizing chosen with
  | nil => simpa [tierScan] using h
  | cons c rest ih =>
    unfold tierScan
    by_cases hlen : chosen.length ≥ 3
    · simpa [hlen] using h
    · simp only [hlen, if_false]
      exact ih _ (le_trans (tierStep_length_le hd s la lo r g chosen c)
        (by omega))

theorem tierLoop_length_le (hd : ℚ × ℚ → ℚ × ℚ → ℚ) (s : Subject) (la lo : ℚ)
    (tl : List (ℚ × String)) (comps : List CompR) (chosen : List Chosen)
    (h : chosen.length ≤ 3) :
    (tierLoop hd s la lo tl comps chosen).length ≤ 3 := by
  induction tl generalizing chosen with
  | nil => simpa [tierLoop] using h
  | cons t rest ih =>
    rcases t with ⟨r, g⟩
    unfold tierLoop
    by_cases hlen : chosen.length ≥ 3
    · simpa [hlen] using h
    · simp only [hlen, if_false]
      exact ih _ (tierScan_length_le hd s la lo r g comps chosen h)

theorem chosenComps_length_le (hd : ℚ × ℚ → ℚ × ℚ → ℚ) (s : Subject)
    (comps : List CompR) : (chosenComps hd s comps).length ≤ 3 := by
  unfold chosenComps
  rcases s.latitude with _ | la
  · simp
  · rcases s.longitude with _ | lo
    · simp
    · exact tierLoop_length_le hd s la lo tiers comps [] (by simp)

theorem tierStep_forall {P : Chosen → Prop} (hd : ℚ × ℚ → ℚ × ℚ → ℚ)
    (s : Subject) (la lo r : ℚ) (g : String) (chosen : List Chosen) (c : CompR)
    (hP : ∀ d, d ≤ r → P ⟨c, g, d⟩) (h : ∀ ch ∈ chosen, P ch) :
    ∀ ch ∈ tierStep hd s la lo r g chosen c, P ch := by
  rcases tierStep_eq_or hd s la lo r g chosen c with he | ⟨d, he, hdr, _⟩ <;> rw [he]
  · exact h
  · intro ch hch
    rcases List.mem_append.mp hch with hch' | hch'
    · exact h ch hch'
    · rcases List.mem_singleton.mp hch' with rfl
      exact hP d hdr

theorem tierScan_forall {P : Chosen → Prop} (hd : ℚ × ℚ → ℚ × ℚ → ℚ)
    (s : Subject) (la lo r : ℚ) (g : String) (comps : List CompR)
    (chosen : List Chosen)
    (hP : ∀ c d, d ≤ r → P ⟨c, g, d⟩) (h : ∀ ch ∈ chosen, P ch) :
    ∀ ch ∈ tierScan hd s la lo r g comps chosen, P ch := by
  induction comps generalizing chosen with
  | nil => simpa [tierScan] using h
  | cons c rest ih =>
    unfold tierScan
    by_cases hlen : chosen.length ≥ 3
    · simpa [hlen] using h
    · simp only [hlen, if_false]
      exact ih _ (tierStep_forall hd s la lo r g chosen c (hP c) h)

theorem tierLoop_forall {P : Chosen → Prop} (hd : ℚ × ℚ → ℚ × ℚ → ℚ)
    (s : Subject) (la lo : ℚ) (tl : List (ℚ × String)) (comps : List CompR)
    (chosen : List Chosen)
    (hP : ∀ t ∈ tl, ∀ c d, d ≤ t.1 → P ⟨c, t.2, d⟩) (h : ∀ ch ∈ chosen, P ch) :
    ∀ ch ∈ tierLoop hd s la lo tl comps chosen, P ch := by
  induction tl generalizing chosen with
  | nil => simpa [tierLoop] using h
  | cons t rest ih =>
    rcases t with ⟨r, g⟩
    unfold tierLoop
    by_cases hlen : chosen.length ≥ 3
    · simpa [hlen] using h
    · simp only [hlen, if_false]
      exact ih _ (fun t ht => hP t (List.mem_cons_of_mem _ ht))
        (tierScan_forall hd s la lo r g comps chosen
          (hP (r, g) (List.mem_cons_self _ _)) h)

theorem chosenComps_forall {P : Chosen → Prop} (hd : ℚ × ℚ → ℚ × ℚ → ℚ)
    (s : Subject) (comps : List CompR)
    (hP : ∀ t ∈ tiers, ∀ c d, d ≤ t.1 → P ⟨c, t.2, d⟩) :
    ∀ ch ∈ chosenComps hd s comps, P ch := by
  unfold chosenComps
  rcases s.latitude with _ | la
  · simp
  · rcases s.longitude with _ | lo
    · simp
    · exact tierLoop_forall hd s la lo tiers comps [] hP (by simp)

theorem dupReject_false_mem {chosen : List Chosen} {c : CompR}
    (h : dupReject chosen c = false) (g : String) (d : ℚ) :
    ∀ ch ∈ chosen, DistinctId ch ⟨c, g, d⟩ := by
  intro ch hch
  unfold dupReject at h
  rcases Bool.or_eq_false_iff.mp h with ⟨hz, hi⟩
  rw [List.any_eq_false] at hz hi
  constructor
  · rintro ⟨h1, h2, h3⟩
    have hx := hz ch hch
    simp [h1, h2, h3] at hx
  · rintro ⟨h1, h2, h3⟩
    have hx := hi ch hch
    simp [h1, h2, h3] at hx

theorem tierStep_pairwise (hd : ℚ × ℚ → ℚ × ℚ → ℚ) (s : Subject) (la lo r : ℚ)
    (g : String) (chosen : List Chosen) (c : CompR)
    (h : chosen.Pairwise DistinctId) :
    (tierStep hd s la lo r g chosen c).Pairwise DistinctId := by
  rcases tierStep_eq_or hd s la lo r g chosen c with he | ⟨d, he, _, hdup⟩ <;> rw [he]
  · exact h
  · rw [List.pairwise_append]
    exact ⟨h, List.pairwise_singleton _ _, by
      intro a ha b hb
      rcases List.mem_singleton.mp hb with rfl
      exact dupReject_false_mem hdup g d a ha⟩

theorem tierScan_pairwise (hd : ℚ × ℚ → ℚ × ℚ → ℚ) (s : Subject) (la lo r : ℚ)
    (g : String) (comps : List CompR) (chosen : List Chosen)
    (h : chosen.Pairwise DistinctId) :
    (tierScan hd s la lo r g comps chosen).Pairwise DistinctId := by
  induction comps generalizing chosen with
  | nil => simpa [tierScan] using h
  | cons c rest ih =>
    unfold tierScan
    by_cases hlen : chosen.length ≥ 3
    · simpa [hlen] using h
    · simp only [hlen, if_false]
      exact ih _ (tierStep_pairwise hd s la lo r g chosen c h)

theorem tierLoop_pairwise (hd : ℚ × ℚ → ℚ × ℚ → ℚ) (s : Subject) (la lo : ℚ)
    (tl : List (ℚ × String)) (comps : List CompR) (chosen : List Chosen)
    (h : chosen.Pairwise DistinctId) :
    (tierLoop hd s la lo tl comps chosen).Pairwise DistinctId := by
  induction tl generalizing chosen with
  | nil => simpa [tierLoop] using h
  | cons t rest ih =>
    rcases t with ⟨r, g⟩
    unfold tierLoop
    by_cases hlen : chosen.length ≥ 3
    · simpa [hlen] using h
    · simp only [hlen, if_false]
      exact ih _ (tierScan_pairwise hd s la lo r g comps chosen h)

theorem distinctId_symm : Symmetric DistinctId := by
  intro a b ⟨h1, h2⟩
  exact ⟨fun ⟨p1, p2, p3⟩ => h1 ⟨p2, p1, p3.symm⟩, fun ⟨p1, p2, p3⟩ => h2 ⟨p2, p1, p3.symm⟩⟩

theorem sortedChosen_pairwise_distinct (hd : ℚ × ℚ → ℚ × ℚ → ℚ) (s : Subject)
    (comps : List CompR) : (sortedChosen hd s comps).Pairwise DistinctId := by
  have hbase : (chosenComps hd s comps).Pairwise DistinctId := by
    unfold chosenComps
    rcases s.latitude with _ | la
    · simp
    · rcases s.longitude with _ | lo
      · simp
      · exact tierLoop_pairwise hd s la lo tiers comps [] (by simp)
  exact ((sortStable_perm chLE (chosenComps hd s comps)).pairwise_iff
    (fun {a b} h => distinctId_symm h)).mpr hbase

theorem psfTruthy_eq_some {c : CompR}
    (h : (tvN (comp_sqft c) && (comp_sold c != 0)) = true) :
    psfTruthy c = some ((comp_sold c : ℚ) / ((comp_sqft c).getD 0 : ℚ)) := by
  rcases Bool.and_eq_true_iff.mp h with ⟨h1, h2⟩
  have hsold : comp_sold c ≠ 0 := by simpa using h2
  have hsq : ((comp_sqft c).getD 0 : ℚ) ≠ 0 := by
    rcases hq : comp_sqft c with _ | n
    · rw [hq] at h1; simp [tvN] at h1
    · rw [hq] at h1
      have : n ≠ 0 := by simpa [tvN] using h1
      simpa using this
  have hne : ((comp_sold c : ℚ) / ((comp_sqft c).getD 0 : ℚ)) ≠ 0 :=
    div_ne_zero (by exact_mod_cast hsold) hsq
  unfold psfTruthy comp_psf
  rw [if_pos h]
  simp [hne]

theorem psfTruthy_eq_none {c : CompR}
    (h : (tvN (comp_sqft c) && (comp_sold c != 0)) = false) :
    psfTruthy c = none := by
  unfold psfTruthy comp_psf
  rw [if_neg (by simp [h])]

theorem psfList_eq (l : List Chosen) :
    psfList l =
      (l.filter fun ch => tvN (comp_sqft ch.comp) && (comp_sold ch.comp != 0)).map
        (fun ch => (comp_sold ch.comp : ℚ) / ((comp_sqft ch.comp).getD 0 : ℚ)) := by
  induction l with
  | nil => rfl
  | cons ch rest ih =>
    unfold psfList at ih ⊢
    rw [List.filterMap_cons, List.filter_cons]
    by_cases h : (tvN (comp_sqft ch.comp) && (comp_sold ch.comp != 0)) = true
    · simp only [psfTruthy_eq_some h, h, if_true, List.map_cons, ih]
    · have h' : (tvN (comp_sqft ch.comp) && (comp_sold ch.comp != 0)) = false := by
        simpa using h
      simp only [psfTruthy_eq_none h', h', Bool.false_eq_true, if_false, ih]

theorem tvQ_zeroToNoneQ (o : Option ℚ) : tvQ (zeroToNoneQ o) = tvQ o := by
  rcases o with _ | q
  · rfl
  · by_cases h : q = 0 <;> simp [zeroToNoneQ, tvQ, h]

theorem tvN_zeroToNoneN (o : Option ℕ) : tvN (zeroToNoneN o) = tvN o := by
  rcases o with _ | n
  · rfl
  · by_cases h : n = 0 <;> simp [zeroToNoneN, tvN, h]

theorem tvZ_zeroToNoneZ (o : Option ℤ) : tvZ (zeroToNoneZ o) = tvZ o := by
  rcases o with _ | z
  · rfl
  · by_cases h : z = 0 <;> simp [zeroToNoneZ, tvZ, h]

theorem zeroToNoneQ_tv (o : Option ℚ) (h : tvQ o = true) : zeroToNoneQ o = o := by
  rcases o with _ | q
  · rfl
  · have : q ≠ 0 := by simpa [tvQ] using h
    simp [zeroToNoneQ, this]

theorem zeroToNoneN_tv (o : Option ℕ) (h : tvN o = true) : zeroToNoneN o = o := by
  rcases o with _ | n
  · rfl
  · have : n ≠ 0 := by simpa [tvN] using h
    simp [zeroToNoneN, this]

theorem zeroToNoneZ_tv (o : Option ℤ) (h : tvZ o = true) : zeroToNoneZ o = o := by
  rcases o with _ | z
  · rfl
  · have : z ≠ 0 := by simpa [tvZ] using h
    simp [zeroToNoneZ, this]

theorem orQ_zeroToNone (a b : Option ℚ) :
    tvQ (orQ (zeroToNoneQ a) (zeroToNoneQ b)) = tvQ (orQ a b) ∧
    (tvQ (orQ a b) = true → orQ (zeroToNoneQ a) (zeroToNoneQ b) = orQ a b) := by
  unfold orQ
  rw [tvQ_zeroToNoneQ a]
  by_cases ha : tvQ a = true
  · rw [if_pos ha, if_pos ha, zeroToNoneQ_tv a ha]
    exact ⟨rfl, fun _ => rfl⟩
  · rw [if_neg ha, if_neg ha]
    exact ⟨tvQ_zeroToNoneQ b, fun h => zeroToNoneQ_tv b h⟩

theorem orN_zeroToNone (a b : Option ℕ) :
    tvN (orN (zeroToNoneN a) (zeroToNoneN b)) = tvN (orN a b) ∧
    (tvN (orN a b) = true → orN (zeroToNoneN a) (zeroToNoneN b) = orN a b) := by
  unfold orN
  rw [tvN_zeroToNoneN a]
  by_cases ha : tvN a = true
  · rw [if_pos ha, if_pos ha, zeroToNoneN_tv a ha]
    exact ⟨rfl, fun _ => rfl⟩
  · rw [if_neg ha, if_neg ha]
    exact ⟨tvN_zeroToNoneN b, fun h => zeroToNoneN_tv b h⟩

theorem orZ_zeroToNone (a b : Option ℤ) :
    tvZ (orZ (zeroToNoneZ a) (zeroToNoneZ b)) = tvZ (orZ a b) ∧
    (tvZ (orZ a b) = true → orZ (zeroToNoneZ a) (zeroToNoneZ b) = orZ a b) := by
  unfold orZ
  rw [tvZ_zeroToNoneZ a]
  by_cases ha : tvZ a = true
  · rw [if_pos ha, if_pos ha, zeroToNoneZ_tv a ha]
    exact ⟨rfl, fun _ => rfl⟩
  · rw [if_neg ha, if_neg ha]
    exact ⟨tvZ_zeroToNoneZ b, fun h => zeroToNoneZ_tv b h⟩

theorem bedsReject_zeroNorm (s : Subject) (c : CompR) :
    bedsReject (zeroNormSubject s) (zeroNormComp c) = bedsReject s c := by
  obtain ⟨h1, h2⟩ := orQ_zeroToNone c.bedrooms c.building.rooms.beds
  have hcb0 : comp_beds c = orQ c.bedrooms c.building.rooms.beds := rfl
  have hcb : comp_beds (zeroNormComp c) =
      orQ (zeroToNoneQ c.bedrooms) (zeroToNoneQ c.building.rooms.beds) := rfl
  have hsb : (zeroNormSubject s).beds = zeroToNoneQ s.beds := rfl
  unfold bedsReject
  rw [hcb0, hcb, hsb, tvQ_zeroToNoneQ, h1]
  by_cases hs : tvQ s.beds = true
  · by_cases hc : tvQ (orQ c.bedrooms c.building.rooms.beds) = true
    · rw [zeroToNoneQ_tv s.beds hs, h2 hc]
    · have hc' : tvQ (orQ c.bedrooms c.building.rooms.beds) = false := by simpa using hc
      rw [hc']
      simp
  · have hs' : tvQ s.beds = false := by simpa using hs
    rw [hs']
    simp

theorem bathsReject_zeroNorm (s : Subject) (c : CompR) :
    bathsReject (zeroNormSubject s) (zeroNormComp c) = bathsReject s c := by
  obtain ⟨h1, h2⟩ := orQ_zeroToNone c.bathrooms c.building.rooms.bathTotal
  have hcb0 : comp_baths c = orQ c.bathrooms c.building.rooms.bathTotal := rfl
  have hcb : comp_baths (zeroNormComp c) =
      orQ (zeroToNoneQ c.bathrooms) (zeroToNoneQ c.building.rooms.bathTotal) := rfl
  have hsb : (zeroNormSubject s).baths = zeroToNoneQ s.baths := rfl
  unfold bathsReject
  rw [hcb0, hcb, hsb, tvQ_zeroToNoneQ, h1]
  by_cases hs : tvQ s.baths = true
  · by_cases hc : tvQ (orQ c.bathrooms c.building.rooms.bathTotal) = true
    · rw [zeroToNoneQ_tv s.baths hs, h2 hc]
    · have hc' : tvQ (orQ c.bathrooms c.building.rooms.bathTotal) = false := by simpa using hc
      rw [hc']
      simp
  · have hs' : tvQ s.baths = false := by simpa using hs
    rw [hs']
    simp

theorem yearReject_zeroNorm (s : Subject) (c : CompR) :
    yearReject (zeroNormSubject s) (zeroNormComp c) = yearReject s c := by
  obtain ⟨h1, h2⟩ := orZ_zeroToNone c.yearBuilt c.summary.yearBuilt
  have hcb0 : comp_year c = orZ c.yearBuilt c.summary.yearBuilt := rfl
  have hcb : comp_year (zeroNormComp c) =
      orZ (zeroToNoneZ c.yearBuilt) (zeroToNoneZ c.summary.yearBuilt) := rfl
  have hsb : (zeroNormSubject s).year = zeroToNoneZ s.year := rfl
  unfold yearReject
  rw [hcb0, hcb, hsb, tvZ_zeroToNoneZ, h1]
  by_cases hs : tvZ s.year = true
  · by_cases hc : tvZ (orZ c.yearBuilt c.summary.yearBuilt) = true
    · rw [zeroToNoneZ_tv s.year hs, h2 hc]
    · have hc' : tvZ (orZ c.yearBuilt c.summary.yearBuilt) = false := by simpa using hc
      rw [hc']
      simp
  · have hs' : tvZ s.year = false := by simpa using hs
    rw [hs']
    simp

theorem sqftReject_zeroNorm (s : Subject) (c : CompR) :
    sqftReject (zeroNormSubject s) (zeroNormComp c) = sqftReject s c := by
  obtain ⟨h1, h2⟩ := orN_zeroToNone c.livingArea c.building.size.livingSize
  have hcb0 : comp_sqft c = orN c.livingArea c.building.size.livingSize := rfl
  have hcb : comp_sqft (zeroNormComp c) =
      orN (zeroToNoneN c.livingArea) (zeroToNoneN c.building.size.livingSize) := rfl
  have hsb : (zeroNormSubject s).sqft = zeroToNoneN s.sqft := rfl
  unfold sqftReject
  rw [hcb0, hcb, hsb, tvN_zeroToNoneN, h1]
  by_cases hs : tvN s.sqft = true
  · by_cases hc : tvN (orN c.livingArea c.building.size.livingSize) = true
    · rw [zeroToNoneN_tv s.sqft hs, h2 hc]
    · have hc' : tvN (orN c.livingArea c.building.size.livingSize) = false := by simpa using hc
      rw [hc']
      simp
  · have hs' : tvN s.sqft = false := by simpa using hs
    rw [hs']
    simp

theorem dupReject_date (f : CompR → Option String) (chosen : List Chosen) (c : CompR) :
    dupReject (chosen.map (mapChDate f)) (withSaleDate f c) = dupReject chosen c := by
  unfold dupReject
  rw [List.any_map, List.any_map]
  rfl

theorem tierStep_date (hd : ℚ × ℚ → ℚ × ℚ → ℚ) (s : Subject) (la lo r : ℚ)
    (g : String) (f : CompR → Option String) (chosen : List Chosen) (c : CompR) :
    tierStep hd s la lo r g (chosen.map (mapChDate f)) (withSaleDate f c) =
      (tierStep hd s la lo r g chosen c).map (mapChDate f) := by
  unfold tierStep
  simp only [show propClassReject (withSaleDate f c) = propClassReject c from rfl,
    dupReject_date f chosen c,
    show comp_lat (withSaleDate f c) = comp_lat c from rfl,
    show comp_lon (withSaleDate f c) = comp_lon c from rfl,
    show bedsReject s (withSaleDate f c) = bedsReject s c from rfl,
    show bathsReject s (withSaleDate f c) = bathsReject s c from rfl,
    show yearReject s (withSaleDate f c) = yearReject s c from rfl,
    show sqftReject s (withSaleDate f c) = sqftReject s c from rfl]
  by_cases h1 : propClassReject c = true
  · simp [h1]
  · simp only [h1, Bool.false_eq_true, if_false]
    by_cases h2 : dupReject chosen c = true
    · simp [h2]
    · simp only [h2, Bool.false_eq_true, if_false]
      rcases hla : comp_lat c with _ | la2
      · simp
      · rcases hlo : comp_lon c with _ | lo2
        · simp
        · by_cases h3 : hd (la, lo) (la2, lo2) > r
          · simp [h3]
          · simp only [h3, if_false]
            by_cases h4 : bedsReject s c = true
            · simp [h4]
            · simp only [h4, Bool.false_eq_true, if_false]
              by_cases h5 : bathsReject s c = true
              · simp [h5]
              · simp only [h5, Bool.false_eq_true, if_false]
                by_cases h6 : yearReject s c = true
                · simp [h6]
                · simp only [h6, Bool.false_eq_true, if_false]
                  by_cases h7 : sqftReject s c = true
                  · simp [h7]
                  · simp only [h7, Bool.false_eq_true, if_false, List.map_append]
                    rfl

theorem tierScan_date (hd : ℚ × ℚ → ℚ × ℚ → ℚ) (s : Subject) (la lo r : ℚ)
    (g : String) (f : CompR → Option String) (comps : List CompR)
    (chosen : List Chosen) :
    tierScan hd s la lo r g (comps.map (withSaleDate f)) (chosen.map (mapChDate f)) =
      (tierScan hd s la lo r g comps chosen).map (mapChDate f) := by
  induction comps generalizing chosen with
  | nil => rfl
  | cons c rest ih =>
    unfold tierScan
    rw [List.map_cons]
    simp only [List.length_map]
    by_cases hlen : chosen.length ≥ 3
    · simp [hlen]
    · simp only [hlen, if_false]
      rw [tierStep_date hd s la lo r g f chosen c]
      exact ih _

theorem tierLoop_date (hd : ℚ × ℚ → ℚ × ℚ → ℚ) (s : Subject) (la lo : ℚ)
    (f : CompR → Option String) (tl : List (ℚ × String)) (comps : List CompR)
    (chosen : List Chosen) :
    tierLoop hd s la lo tl (comps.map (withSaleDate f)) (chosen.map (mapChDate f)) =
      (tierLoop hd s la lo tl comps chosen).map (mapChDate f) := by
  induction tl generalizing chosen with
  | nil => rfl
  | cons t rest ih =>
    rcases t with ⟨r, g⟩
    unfold tierLoop
    simp only [List.length_map]
    by_cases hlen : chosen.length ≥ 3
    · simp [hlen]
    · simp only [hlen, if_false]
      rw [tierScan_date hd s la lo r g f comps chosen]
      exact ih _

theorem chosenComps_date (hd : ℚ × ℚ → ℚ × ℚ → ℚ) (s : Subject)
    (f : CompR → Option String) (comps : List CompR) :
    chosenComps hd s (comps.map (withSaleDate f)) =
      (chosenComps hd s comps).map (mapChDate f) := by
  unfold chosenComps
  rcases s.latitude with _ | la
  · rfl
  · rcases s.longitude with _ | lo
    · rfl
    · exact tierLoop_date hd s la lo f tiers comps []

theorem insSorted_cons (le : α → α → Bool) (x y : α) (ys : List α) :
    insSorted le x (y :: ys) = if le x y then x :: y :: ys else y :: insSorted le x ys := rfl

theorem insSorted_date (f : CompR → Option String) (x : Chosen) (l : List Chosen) :
    insSorted chLE (mapChDate f x) (l.map (mapChDate f)) =
      (insSorted chLE x l).map (mapChDate f) := by
  induction l with
  | nil => rfl
  | cons y ys ih =>
    rw [List.map_cons, insSorted_cons, insSorted_cons,
      show chLE (mapChDate f x) (mapChDate f y) = chLE x y from rfl]
    by_cases h : chLE x y = true
    · rw [if_pos h, if_pos h]
      rfl
    · rw [if_neg h, if_neg h, List.map_cons, ih]

theorem sortStable_date (f : CompR → Option String) (l : List Chosen) :
    sortStable chLE (l.map (mapChDate f)) = (sortStable chLE l).map (mapChDate f) := by
  induction l with
  | nil => rfl
  | cons y ys ih =>
    unfold sortStable at ih ⊢
    rw [List.map_cons, List.foldr_cons, List.foldr_cons, ih]
    exact insSorted_date f y _

theorem avgPsf_date (f : CompR → Option String) (l : List Chosen) :
    avgPsf (l.map (mapChDate f)) = avgPsf l := by
  unfold avgPsf psfList
  rw [List.filterMap_map]
  rfl

/-! ## Claim theorems -/

/-- C1 counterexample: comp selection applies no sale-date recency filter.  An
otherwise perfectly matching candidate whose sale closed fourteen months ago
(August 2025, relative to October 2026) is admitted, both by `get_clean_comps`
directly and through the full `get_comp_summary` pipeline, and the selection
output is identical to the one for the same candidate sold three months ago —
the claim says the fourteen-month-old candidate must be excluded. -/
theorem C1_counterexample :
    (get_clean_comps hd0 subjW [perfComp14]).1.length = 1 ∧
    get_clean_comps hd0 subjW [perfComp14] = get_clean_comps hd0 subjW [perfComp3] ∧
    (get_comp_summary envOld none).1.length = 1 := by
  refine ⟨by with_unfolding_all rfl, by with_unfolding_all rfl, by with_unfolding_all rfl⟩

/-- C1 (amended): no recency window exists in comp selection; the output of
`get_clean_comps` is invariant under arbitrarily rewriting every candidate's
sale date (sale dates influence only the most-recent-first pre-ordering of
the raw pool done in `get_comp_summary`). -/
theorem C1_amended_selection_ignores_sale_dates :
    ∀ (hdist : ℚ × ℚ → ℚ × ℚ → ℚ) (s : Subject) (comps : List CompR)
      (f : CompR → Option String),
    get_clean_comps hdist s (comps.map (withSaleDate f)) = get_clean_comps hdist s comps := by
  intro hd s comps f
  unfold get_clean_comps sortedChosen
  rw [chosenComps_date, sortStable_date, List.map_map, avgPsf_date]
  rfl

/-- C2 counterexample: a candidate with no identity fields is admitted three
times over (once per successive tier, graded A+, B+ and C+), so the admitted
comps are not pairwise distinct records. -/
theorem C2_counterexample :
    (sortedChosen hd0 subjW [anonComp]).map (fun ch => ch.comp) =
      [anonComp, anonComp, anonComp] ∧
    (sortedChosen hd0 subjW [anonComp]).map (fun ch => ch.grade) =
      ["A+", "B+", "C+"] := by
  exact ⟨by with_unfolding_all rfl, by with_unfolding_all rfl⟩

/-- C2 (amended): de-duplication holds exactly for truthy identity keys: no
two admitted comps share a truthy `zpid` and no two share a truthy `id`;
candidates lacking both identity fields are exempt and can be re-admitted at
later tiers. -/
theorem C2_amended_distinct_truthy_ids :
    ∀ (hdist : ℚ × ℚ → ℚ × ℚ → ℚ) (s : Subject) (comps : List CompR),
    (sortedChosen hdist s comps).Pairwise DistinctId := by
  intro hd s comps
  exact sortedChosen_pairwise_distinct hd s comps

/-- C3: selection returns between 0 and 3 comps — the formatted comp list of
`get_clean_comps` never has more than 3 entries, and the empty result (on an
empty candidate pool) is an ordinary, non-error outcome `([], 0)`. -/
theorem C3_cap_and_empty_ok :
    (∀ (hdist : ℚ × ℚ → ℚ × ℚ → ℚ) (s : Subject) (comps : List CompR),
      (get_clean_comps hdist s comps).1.length ≤ 3) ∧
    get_clean_comps hd0 subjW [] = ([], 0) := by
  constructor
  · intro hd s comps
    unfold get_clean_comps sortedChosen
    rw [List.length_map, length_sortStable]
    exact chosenComps_length_le hd s comps
  · with_unfolding_all rfl

/-- C4: evaluation at the failing input `(subject_sqft, avg_psf, rehab_level)
= (1000, 150.0, 1)`.  The deal-calculator call in main.py passes
`subject_sqft` as the `arv_estimate` argument, so the produced ARV is `1000`,
not `subject_sqft × avg_psf = 150000` (which would fall in the 70% band, not
the 55% band the code applies) — `avg_psf` is ignored in the ARV entirely,
contradicting both the claim and main.py's own displayed formula
`ARV: {subject_sqft} sqft × {avg_psf}/sqft = {deals[arv]}`. -/
theorem C4_code_eval :
    (mainDeals 1000 150 1).arv = 1000 ∧
    (1000 : ℚ) * 150 = 150000 ∧
    (mainDeals 1000 150 1).arv ≠ (1000 : ℚ) * 150 ∧
    arv_multiplier (mainDeals 1000 150 1).arv = 55 / 100 ∧
    arv_multiplier ((1000 : ℚ) * 150) = 70 / 100 := by
  have harv : (mainDeals 1000 150 1).arv = (1000 : ℚ) := rfl
  refine ⟨rfl, by norm_num, ?_, ?_, ?_⟩
  · rw [harv]
    norm_num
  · rw [harv]
    norm_num [arv_multiplier]
  · norm_num [arv_multiplier]

/-- C5: the returned `avg_psf` is the arithmetic mean of `sold / sqft` over
exactly those admitted comps whose resolved sale price is known (nonzero) and
whose resolved living area is known and positive, and it is `0` when no
admitted comp has a computable PSF (in particular for an empty comp list) —
the division by the count only happens when that count is nonzero. -/
theorem C5_avg_psf :
    ∀ (hdist : ℚ × ℚ → ℚ × ℚ → ℚ) (s : Subject) (comps : List CompR),
    (get_clean_comps hdist s comps).2 =
      (let qual := (sortedChosen hdist s comps).filter
        fun ch => tvN (comp_sqft ch.comp) && (comp_sold ch.comp != 0)
      if qual.length = 0 then 0
      else (qual.map fun ch =>
        (comp_sold ch.comp : ℚ) / ((comp_sqft ch.comp).getD 0 : ℚ)).sum / (qual.length : ℚ)) := by
  intro hd s comps
  unfold get_clean_comps avgPsf
  rw [psfList_eq]
  by_cases hq : ((sortedChosen hd s comps).filter
      fun ch => tvN (comp_sqft ch.comp) && (comp_sold ch.comp != 0)) = []
  · simp [hq]
  · have h1 : (((sortedChosen hd s comps).filter
        fun ch => tvN (comp_sqft ch.comp) && (comp_sold ch.comp != 0)).map
          fun ch => (comp_sold ch.comp : ℚ) / ((comp_sqft ch.comp).getD 0 : ℚ)).isEmpty
        = false := by
      simpa [List.isEmpty_iff, List.map_eq_nil_iff] using hq
    have h2 : ¬ ((sortedChosen hd s comps).filter
        fun ch => tvN (comp_sqft ch.comp) && (comp_sold ch.comp != 0)).length = 0 := by
      simpa [List.length_eq_zero] using hq
    simp only [h1, Bool.false_eq_true, if_false, h2, List.length_map]

/-- C6: every admitted comp's stored distance is at most the radius of the
tier whose grade label it carries (1 mile for A+, 2 for B+, 3 for C+, 5 for
D+, 10 for F), the selected comps are returned sorted in ascending order of
that distance, and the formatted list handed back to the caller is exactly
the image of that sorted list. -/
theorem C6_tier_bound_and_sorted :
    ∀ (hdist : ℚ × ℚ → ℚ × ℚ → ℚ) (s : Subject) (comps : List CompR),
    (∀ ch ∈ sortedChosen hdist s comps, ch.distance ≤ tierRadius ch.grade) ∧
    (sortedChosen hdist s comps).Pairwise (fun a b => a.distance ≤ b.distance) ∧
    (get_clean_comps hdist s comps).1 = (sortedChosen hdist s comps).map fmtComp := by
  intro hd s comps
  refine ⟨?_, pairwise_sortStable_chLE _, rfl⟩
  intro ch hch
  have hch' : ch ∈ chosenComps hd s comps := mem_sortStable.mp hch
  refine @chosenComps_forall (fun ch => ch.distance ≤ tierRadius ch.grade) hd s comps ?_ ch hch'
  intro t ht c d hdle
  fin_cases ht <;> simpa [tierRadius] using hdle

/-- C6 witness: the perfectly matching candidate is admitted at distance 0
with grade A+, within the A+ tier radius of 1 mile. -/
theorem C6_witness :
    (⟨perfComp3, "A+", 0⟩ : Chosen) ∈ sortedChosen hd0 subjW [perfComp3] ∧
    (⟨perfComp3, "A+", 0⟩ : Chosen).distance ≤ tierRadius "A+" := by
  have he : sortedChosen hd0 subjW [perfComp3] = [⟨perfComp3, "A+", 0⟩] := by
    with_unfolding_all rfl
  refine ⟨by rw [he]; exact List.mem_singleton.mpr rfl,
    (C6_tier_bound_and_sorted hd0 subjW [perfComp3]).1 _
      (by rw [he]; exact List.mem_singleton.mpr rfl)⟩

/-- C7 counterexample: a manual square footage of `0` is supplied while the
fetched value is `1500`; Python truthiness makes `if manual_sqft:` skip the
override, so the returned subject square footage stays `1500`, not the
supplied manual value — the overwrite is not unconditional. -/
theorem C7_counterexample :
    (get_comp_summary envFetched1500 (some 0)).2.2 = 1500 ∧
    (get_comp_summary envFetched1500 (some 0)).2.2 ≠ 0 := by
  exact ⟨by with_unfolding_all rfl, by with_unfolding_all decide⟩

/-- C7 (amended): whenever a nonzero manual square footage is supplied, it
overwrites any fetched value regardless of the rest of the environment, and
the `subject_sqft` component of the output tuple equals it; a supplied value
of `0` is treated as absent and does not override. -/
theorem C7_amended_nonzero_override :
    ∀ (env : Env) (m : ℕ), m ≠ 0 → (get_comp_summary env (some m)).2.2 = m := by
  intro env m hm
  simp [get_comp_summary, tvN, hm]

/-- C7 witness: supplying `manual_sqft = 3` over a fetched value of 1500
returns 3. -/
theorem C7_witness :
    (3 : ℕ) ≠ 0 ∧ (get_comp_summary envFetched1500 (some 3)).2.2 = 3 :=
  ⟨by decide, C7_amended_nonzero_override envFetched1500 3 (by decide)⟩

/-- C8 counterexample: when geocoding fails the pipeline does not abort with
a distinguishable "could not locate address" outcome — it returns exactly
`([], 0, 0)`, the same value as a successful run that finds no candidates,
even though candidate data was available upstream. -/
theorem C8_counterexample :
    get_comp_summary envGeoFail none = ([], 0, 0) ∧
    get_comp_summary envEmptyOk none = ([], 0, 0) := by
  exact ⟨by with_unfolding_all rfl, by with_unfolding_all rfl⟩

/-- C8 (amended): on geocoding failure no comps are computed from the
unresolved location — every provider fetch is skipped or empty — and the
pipeline returns the ordinary empty result `([], 0, manual-or-0)`,
indistinguishable from the valid empty-result outcome. -/
theorem C8_amended_silent_empty :
    ∀ (env : Env) (m : Option ℕ), env.geo = none →
    get_comp_summary env m = ([], 0, if tvN m then m.getD 0 else 0) := by
  intro env m h
  unfold get_comp_summary get_subject_data
  rw [h]
  cases htv : tvN m <;>
    simp [htv, fetch_attom_comps, fetch_zillow_comps, tvS, tvQ]

/-- C8 witness: a geocode-failure environment with a manual square footage of
5 yields `([], 0, 5)`. -/
theorem C8_witness :
    envGeoFail.geo = none ∧ get_comp_summary envGeoFail (some 5) = ([], 0, 5) :=
  ⟨rfl, (C8_amended_silent_empty envGeoFail (some 5) rfl).trans (by with_unfolding_all decide)⟩

/-- C9 counterexample: a returned comp dict carries exactly the keys
`address, sold_price, sqft, zillow_url, grade, yearBuilt, beds, baths, psf` —
no distance field and no last-sold-date field, contrary to the claimed field
list. -/
theorem C9_counterexample :
    ((get_clean_comps hd0 subjW [perfComp3]).1.map fun d => d.map Prod.fst) = [fmtKeys] ∧
    "distance" ∉ fmtKeys ∧ "saleDate" ∉ fmtKeys ∧ "lastSoldDate" ∉ fmtKeys := by
  exact ⟨by with_unfolding_all rfl, by decide, by decide, by decide⟩

/-- C9 (amended): every comp returned to the caller exposes exactly the nine
fields street address, sold price (integer), living area, reference URL,
grade label, year built, bedroom count, bathroom count and price-per-sqft
(rounded to 2 decimals or null); distance and last-sold date are not
included. -/
theorem C9_amended_keys :
    ∀ (hdist : ℚ × ℚ → ℚ × ℚ → ℚ) (s : Subject) (comps : List CompR)
      (d : List (String × PVal)), d ∈ (get_clean_comps hdist s comps).1 →
    d.map Prod.fst = fmtKeys := by
  intro hd s comps d hdm
  unfold get_clean_comps at hdm
  rcases List.mem_map.mp hdm with ⟨ch, _, rfl⟩
  rfl

/-- C9 witness: the formatted entry of the admitted matching candidate is in
the output and its key list is exactly the nine keys. -/
theorem C9_witness :
    fmtComp ⟨perfComp3, "A+", 0⟩ ∈ (get_clean_comps hd0 subjW [perfComp3]).1 ∧
    (fmtComp ⟨perfComp3, "A+", 0⟩).map Prod.fst = fmtKeys := by
  have he : (get_clean_comps hd0 subjW [perfComp3]).1 = [fmtComp ⟨perfComp3, "A+", 0⟩] := by
    with_unfolding_all rfl
  refine ⟨by rw [he]; exact List.mem_singleton.mpr rfl,
    C9_amended_keys hd0 subjW [perfComp3] _ (by rw [he]; exact List.mem_singleton.mpr rfl)⟩

/-- C10: in the similarity filters a zero-valued attribute is treated exactly
like an absent one: replacing every zero bed/bath/year/sqft attribute of the
subject and of the candidate (in either provider shape) by an absent value
leaves each of the four rejection predicates unchanged — so a zero on either
side never by itself rejects a candidate — and a subject square footage of 0
disables the area filter for every candidate. -/
theorem C10_zero_treated_as_absent :
    ∀ (s : Subject) (c : CompR),
    (bedsReject (zeroNormSubject s) (zeroNormComp c) = bedsReject s c ∧
     bathsReject (zeroNormSubject s) (zeroNormComp c) = bathsReject s c ∧
     yearReject (zeroNormSubject s) (zeroNormComp c) = yearReject s c ∧
     sqftReject (zeroNormSubject s) (zeroNormComp c) = sqftReject s c) ∧
    (s.sqft = some 0 → sqftReject s c = false) := by
  intro s c
  refine ⟨⟨bedsReject_zeroNorm s c, bathsReject_zeroNorm s c,
    yearReject_zeroNorm s c, sqftReject_zeroNorm s c⟩, ?_⟩
  intro h
  unfold sqftReject
  rw [h]
  simp [tvN]

/-- C10 witness: a subject with square footage 0 never area-rejects, and the
zero-normalisation leaves the beds filter outcome unchanged on a concrete
pair. -/
theorem C10_witness :
    sqftReject { subjW with sqft := some 0 } anonComp = false ∧
    bedsReject (zeroNormSubject subjW) (zeroNormComp perfComp3) = bedsReject subjW perfComp3 :=
  ⟨(C10_zero_treated_as_absent { subjW with sqft := some 0 } anonComp).2 rfl,
   (C10_zero_treated_as_absent subjW perfComp3).1.1⟩

end CompingBot
